import Mathlib

/-!
Shallow embedding of `evaluate.py` (EvaluatingImages): the (scale, quality)
sweep engine, image dimension computation, canonical file naming, result
records, persistence, and the side-by-side rendering text wrapper.

Python floats carrying the scale factors (1.0, 2/3, 1/3) are embedded as exact
fractions of naturals (`Scale`); every use in the source is of the form
`int(x * scale_factor)`, embedded as exact floor division, which agrees with
the float computation at all inputs exercised here.  PIL image objects, HTTP
transport and the filesystem are abstracted behind explicit parameters; the
actual JPEG byte encoding is opaque (only success/failure and the resulting
base64 text matter to the logic under study).
-/

/-- Exact rational scale factor `num / den`, embedding the Python float
`scale_factor`. -/
structure Scale where
  num : Nat
  den : Nat
  deriving DecidableEq

/-- Embedding of `int(scale_factor * 100)` (truncating division, exact). -/
def Scale.pct (s : Scale) : Nat := s.num * 100 / s.den

/-- Embedding of the Python comparison `scale_factor == 1.0` (value equality). -/
def Scale.isOne (s : Scale) : Bool := s.num == s.den

/-- Embedding of `int(self.max_dimension * scale_factor)` from
`ImageProcessor.process_image` (line 28). -/
def effectiveMaxDimension (maxDim : Nat) (s : Scale) : Nat := maxDim * s.num / s.den

/-- Dimension computation of `ImageProcessor.process_image` (lines 31-39):
if either side exceeds the bound, the longer side is set to the bound and the
shorter side is scaled by the same ratio with `int(...)` truncation. -/
def compute_bound_dimensions (width height bound : Nat) : Nat × Nat :=
  if width > bound ∨ height > bound then
    if width > height then (bound, height * bound / width)
    else (width * bound / height, bound)
  else (width, height)

/-- Output path built at `ImageProcessor.process_image` lines 56-58:
`os.path.join(output_dir, f"{name}_q{quality}_s{int(scale_factor*100)}.jpg")`.
`dir` and `name` stand for `os.path.dirname(file_path)` and the basename stem;
path splitting itself is filesystem glue outside the core. -/
def output_path (dir name : String) (quality : Nat) (s : Scale) : String :=
  dir ++ "/" ++ name ++ "_q" ++ toString quality ++ "_s" ++ toString s.pct ++ ".jpg"

/-- Embedding of `ImageProcessor.process_image`: `ok` abstracts whether the
PIL open/resize/convert/save pipeline succeeds (any exception yields
`(None, None)`), and `imgB64` is the opaque base64 text of the encoded JPEG. -/
def process_image (ok : Bool) (imgB64 : String) (dir name : String)
    (quality : Nat) (s : Scale) : Option (String × String) :=
  if ok then some (imgB64, output_path dir name quality s) else none

/-- Request payload built in `LLMProcessor.process_file` (lines 98-125).
Sampling parameters `temperature = 0.1` and `min_p = 0.1` are stored in
tenths to stay in exact arithmetic. -/
structure Payload where
  system_instruction : String
  instruction : String
  image_data_url : String
  max_tokens : Nat
  temperature_tenths : Nat
  top_p : Nat
  top_k : Nat
  rep_pen : Nat
  min_p_tenths : Nat
  deriving DecidableEq

/-- The payload `LLMProcessor.process_file` sends for an encoded image. -/
def mkPayload (imgB64 : String) : Payload :=
  { system_instruction := "You are a helpful image capable model"
    instruction := "Describe the image. Make sure to list every object that can be recognized and the location of that object. If there is any writing, transcribe it separately."
    image_data_url := "data:image/jpeg;base64," ++ imgB64
    max_tokens := 1024
    temperature_tenths := 1
    top_p := 1
    top_k := 0
    rep_pen := 1
    min_p_tenths := 1 }

/-- One element of the API reply's `choices` array.  `message = some v` means
the choice carries a `"message"` key, and `v` is its `"content"` entry
(`none` when `"content"` is missing); `text` is the optional `"text"` key. -/
structure Choice where
  message : Option (Option String)
  text : Option String
  deriving DecidableEq

/-- Outcome of the HTTP call in `LLMProcessor.process_file`:
either the request/status/JSON-decoding raised, or a decoded JSON body whose
optional `choices` array is given. -/
inductive ApiReply where
  | transportError (msg : String)
  | reply (choices : Option (List Choice))
  deriving DecidableEq

/-- Wall-clock reading `datetime.now().isoformat()`, abstracted to a fixed
value (no claim concerns its content). -/
def clock_timestamp : String := "1970-01-01T00:00:00"

/-- Elapsed-seconds measurement `end_time - start_time`, abstracted. -/
def clock_elapsed : Nat := 0

/-- The durable record produced once per (scale, quality) pair.  Optional
fields model dictionary keys that are present only in one of the two result
shapes; `response = some none` models the key being present with value
`None`. -/
structure EvalResult where
  success : Bool
  error : Option String
  file_path : String
  quality : Nat
  scale_factor : Scale
  timestamp : String
  output_path : Option String
  processing_time : Option Nat
  payload : Option Payload
  response : Option (Option String)
  deriving DecidableEq

/-- Failure dictionary built at `LLMProcessor.process_file` lines 88-96 and
168-176 (identical key sets). -/
def failure_result (msg fp : String) (q : Nat) (s : Scale) : EvalResult :=
  { success := false, error := some msg, file_path := fp, quality := q
    scale_factor := s, timestamp := clock_timestamp, output_path := none
    processing_time := none, payload := none, response := none }

/-- Success dictionary built at `LLMProcessor.process_file` lines 148-158
(with `response` subsequently filled in from `choices`). -/
def success_result (fp outP : String) (q : Nat) (s : Scale) (p : Payload)
    (resp : Option String) : EvalResult :=
  { success := true, error := none, file_path := fp, quality := q
    scale_factor := s, timestamp := clock_timestamp, output_path := some outP
    processing_time := some clock_elapsed, payload := some p
    response := some resp }

/-- Response extraction of `LLMProcessor.process_file` lines 160-164: absence
of `choices` (or an empty array) leaves `response` as `None`; a choice whose
`message` lacks `content` raises `KeyError`, caught by the enclosing `except`. -/
def extract_response (choices : Option (List Choice)) : Except String (Option String) :=
  match choices with
  | none => .ok none
  | some [] => .ok none
  | some (c :: _) =>
    match c.message with
    | some (some content) => .ok (some content)
    | some none => .error "KeyError: content"
    | none => .ok (some (c.text.getD ""))

/-- Embedding of `LLMProcessor.process_file`: encode the image, build the
payload, perform the request (`api` abstracts the wire outcome), and wrap
everything into an `EvalResult`; every exception inside the `try` block is
converted into the failure dictionary.  An empty base64 string is falsy in
Python, hence treated like an encoding failure. -/
def process_file (imgOk : Bool) (imgB64 : String) (api : ApiReply)
    (dir name : String) (q : Nat) (s : Scale) : EvalResult :=
  match process_image imgOk imgB64 dir name q s with
  | none => failure_result "Failed to process image" (dir ++ "/" ++ name) q s
  | some (b64, outP) =>
    if b64 = "" then failure_result "Failed to process image" (dir ++ "/" ++ name) q s
    else
      match api with
      | .transportError msg => failure_result msg (dir ++ "/" ++ name) q s
      | .reply choices =>
        match extract_response choices with
        | .error msg => failure_result msg (dir ++ "/" ++ name) q s
        | .ok resp => success_result (dir ++ "/" ++ name) outP q s (mkPayload b64) resp

/-- Keys present in the result dictionary, in construction order (the optional
fields are exactly the keys that appear in only one of the two shapes). -/
def result_fields (r : EvalResult) : List String :=
  ["success"]
    ++ (if r.error.isSome then ["error"] else [])
    ++ ["file_path"]
    ++ (if r.output_path.isSome then ["output_path"] else [])
    ++ ["quality", "scale_factor", "timestamp"]
    ++ (if r.processing_time.isSome then ["processing_time"] else [])
    ++ (if r.payload.isSome then ["payload"] else [])
    ++ (if r.response.isSome then ["response"] else [])

/-- Whether the record carries an actual response text (the `response` key is
present and its value is a string, not `None`). -/
def response_text_present (r : EvalResult) : Bool :=
  match r.response with
  | some (some _) => true
  | _ => false

/-- Display resize of `create_side_by_side_image` (lines 192-204): same
arithmetic as `compute_bound_dimensions` with the branch structure of that
code path. -/
def display_dimensions (width height bound : Nat) : Nat × Nat :=
  if width > height then
    if width > bound then (bound, height * bound / width) else (width, height)
  else
    if height > bound then (width * bound / height, bound) else (width, height)

/-- Estimated rendered width of an `n`-character line:
`int(n * (font_size * 0.6))` with `font_size = 14`, i.e. `⌊n * 8.4⌋`,
embedded exactly as `84 * n / 10`. -/
def est_width (n : Nat) : Nat := 84 * n / 10

/-- The string the accumulated words form on one line: words joined by single
spaces, mirroring `current_line + " " + word` growth (empty for no words). -/
def lineStr : List String → String
  | [] => ""
  | [w] => w
  | w :: v :: ws => w ++ " " ++ lineStr (v :: ws)

/-- Greedy accumulation loop of `create_side_by_side_image` lines 259-271:
`cur` is the word list of `current_line`.  When the next word no longer fits,
the current line is flushed (even when empty, matching the unconditional
`draw.text(... current_line ...)`) and the word starts a new line; at the end
a nonempty current line is flushed (`if current_line:`). -/
def greedy_wrap (limit : Nat) : List String → List String → List (List String)
  | [], cur => if cur.isEmpty then [] else [cur]
  | w :: ws, cur =>
    if est_width (lineStr (cur ++ [w])).length < limit then
      greedy_wrap limit ws (cur ++ [w])
    else
      cur :: greedy_wrap limit ws [w]

/-- Per-line wrapping of `create_side_by_side_image` lines 256-274: a line
whose estimated width exceeds the usable panel width (`text_width - 20`,
the `limit`) is wrapped greedily word by word; otherwise it is drawn as is.
`ws` is the line's word list (`line.split()`, hence no empty words). -/
def wrap_line (limit : Nat) (ws : List String) : List (List String) :=
  if est_width (lineStr ws).length > limit then greedy_wrap limit ws [] else [ws]

/-- Comparison-artifact filename rule of `create_side_by_side_image`
lines 280-285. -/
def combined_filename (name : String) (s : Scale) (q : Nat) : String :=
  if s.isOne && q == 100 then name ++ "_original_combined.jpg"
  else if s.isOne then name ++ "_q" ++ toString q ++ "_combined.jpg"
  else name ++ "_s" ++ toString s.pct ++ "_q" ++ toString q ++ "_combined.jpg"

/-- Embedding of `create_side_by_side_image` as far as its fallibility is
concerned.  Inside the `try` block, in source order: loading the original may
raise (`origOk`); `result.get("response", "No response")` returns the stored
value — which is `None`, not the default, when the key is present with value
`None`; building `settings_text` reads `result['payload']` and
`result['processing_time']` (`KeyError` when absent); then
`response_text.split('\n')` raises `AttributeError` when `response_text` is
`None`.  Any exception is caught and reported as `None` (line 292-294). -/
def create_side_by_side_image (origOk : Bool) (origWidth origHeight : Nat)
    (name : String) (result : EvalResult) (output_dir : String) : Option String :=
  if !origOk then none
  else
    let bound := effectiveMaxDimension 896 result.scale_factor
    let _dims := display_dimensions origWidth origHeight bound
    let response_text : Option String :=
      match result.response with
      | none => some "No response"
      | some v => v
    match result.payload with
    | none => none
    | some _ =>
      match result.processing_time with
      | none => none
      | some _ =>
        match response_text with
        | none => none
        | some _ =>
          some (output_dir ++ "/" ++ combined_filename name result.scale_factor result.quality)

/-- Quality levels of `run_full_quality_cycle` line 310, in literal order. -/
def qualities : List Nat := [100, 90, 70, 50, 30, 10]

/-- Scale factors of `main` line 383 (`[1.0, 2/3, 1/3]`), in literal order. -/
def scales : List Scale := [⟨1, 1⟩, ⟨2, 3⟩, ⟨1, 3⟩]

/-- The (scale, quality) pairs the sweep enumerates, in enumeration order:
scales outermost (`main` lines 383-387), qualities innermost
(`run_full_quality_cycle` line 310). -/
def sweep_pairs : List (Scale × Nat) :=
  scales.flatMap (fun s => qualities.map (fun q => (s, q)))

/-- JSON artifact filename rule of `run_full_quality_cycle` lines 321-326. -/
def json_filename (name : String) (s : Scale) (q : Nat) : String :=
  if s.isOne && q == 100 then name ++ "_original.json"
  else if s.isOne then name ++ "_q" ++ toString q ++ ".json"
  else name ++ "_s" ++ toString s.pct ++ "_q" ++ toString q ++ ".json"

/-- Dictionary comprehension of line 332 dropping the key `'image_base64'`:
no result dictionary ever carries that key, so on the record it is the
identity (in particular the full `payload`, base64 image included, is kept). -/
def result_for_json (r : EvalResult) : EvalResult := r

/-- Environment a sweep runs against: per-(scale, quality) encoding success,
encoded base64 text, and wire outcome. -/
structure SweepEnv where
  imgOk : Scale → Nat → Bool
  imgB64 : Scale → Nat → String
  api : Scale → Nat → ApiReply

/-- Results produced by `run_full_quality_cycle` (lines 310-341) for one
scale: one `process_file` call per quality, in order, unconditionally. -/
def run_full_quality_cycle (env : SweepEnv) (dir name : String) (s : Scale) :
    List EvalResult :=
  qualities.map (fun q => process_file (env.imgOk s q) (env.imgB64 s q) (env.api s q) dir name q s)

/-- JSON documents `run_full_quality_cycle` persists for one scale:
lines 316-335 write a document only in the `result["success"]` branch. -/
def cycle_persisted (env : SweepEnv) (dir name out_dir : String) (s : Scale) :
    List (String × EvalResult) :=
  (run_full_quality_cycle env dir name s).filterMap
    (fun r =>
      if r.success then
        some (out_dir ++ "/" ++ json_filename name r.scale_factor r.quality, result_for_json r)
      else none)

/-- Per-image sweep of `main` lines 383-387: the three scales in order, each
running the full quality cycle. -/
def run_sweep (env : SweepEnv) (dir name : String) : List EvalResult :=
  scales.flatMap (run_full_quality_cycle env dir name)

/-- All JSON documents persisted during one image's sweep. -/
def sweep_persisted (env : SweepEnv) (dir name out_dir : String) :
    List (String × EvalResult) :=
  scales.flatMap (cycle_persisted env dir name out_dir)

/-- Environment in which every pair encodes and the API answers with a
well-formed single choice. -/
def env_all_ok : SweepEnv :=
  { imgOk := fun _ _ => true
    imgB64 := fun _ _ => "QkFTRTY0"
    api := fun _ _ => .reply (some [{ message := some (some "a cat"), text := none }]) }

/-- Environment injecting one transport failure at pair (scale 2/3,
quality 50), every other pair succeeding. -/
def env_fail_one : SweepEnv :=
  { imgOk := fun _ _ => true
    imgB64 := fun _ _ => "QkFTRTY0"
    api := fun s q =>
      if s == ⟨2, 3⟩ && q == 50 then .transportError "connection refused"
      else .reply (some [{ message := some (some "a cat"), text := none }]) }

/-- Modelled from the spec: rounding a ratio `a / b` to the nearest integer
(half rounds up), the reading several claims give to the suffix and resize
arithmetic; the source instead truncates with `int(...)`. -/
def round_div (a b : Nat) : Nat := (2 * a + b) / (2 * b)

/-- Modelled from the spec: `round(scale * 100)`, the scale suffix the claims
describe. -/
def round_pct (s : Scale) : Nat := round_div (s.num * 100) s.den

/-- Modelled from the spec: the canonical encoded-variant path with the
rounded scale suffix, `{dir}/{basename}_q{quality}_s{round(scale*100)}.jpg`. -/
def spec_output_path (dir name : String) (quality : Nat) (s : Scale) : String :=
  dir ++ "/" ++ name ++ "_q" ++ toString quality ++ "_s" ++ toString (round_pct s) ++ ".jpg"

/-! ### Helper lemmas -/

/-- Floor-division upper bound: for positive `b`, `a < (a / b + 1) * b`. -/
theorem nat_lt_div_succ_mul (a b : Nat) (hb : 0 < b) : a < (a / b + 1) * b :=
  (Nat.div_lt_iff_lt_mul hb).mp (Nat.lt_succ_self _)

/-- Dividing something bounded by `b * c` by `c` stays below `b`. -/
theorem nat_div_le_of_le_mul {a b c : Nat} (h : a ≤ b * c) : a / c ≤ b := by
  rcases Nat.eq_zero_or_pos c with hc | hc
  · subst hc; simp
  · calc a / c ≤ b * c / c := Nat.div_le_div_right h
      _ = b := by rw [Nat.mul_comm]; exact Nat.mul_div_cancel_left b hc

/-- Every `process_file` run yields either the failure dictionary or the
success dictionary (with the canonical output path and the sent payload). -/
theorem process_file_shape (imgOk : Bool) (imgB64 : String) (api : ApiReply)
    (dir name : String) (q : Nat) (s : Scale) :
    (∃ msg, process_file imgOk imgB64 api dir name q s
        = failure_result msg (dir ++ "/" ++ name) q s) ∨
    (∃ resp, process_file imgOk imgB64 api dir name q s
        = success_result (dir ++ "/" ++ name) (output_path dir name q s) q s
            (mkPayload imgB64) resp) := by
  cases imgOk with
  | false => exact Or.inl ⟨"Failed to process image", by simp [process_file, process_image]⟩
  | true =>
    by_cases hb : imgB64 = ""
    · exact Or.inl ⟨"Failed to process image", by simp [process_file, process_image, hb]⟩
    · cases api with
      | transportError msg =>
        exact Or.inl ⟨msg, by simp [process_file, process_image, hb]⟩
      | reply choices =>
        cases h : extract_response choices with
        | error msg =>
          exact Or.inl ⟨msg, by simp [process_file, process_image, hb, h]⟩
        | ok resp =>
          exact Or.inr ⟨resp, by simp [process_file, process_image, hb, h]⟩

/-- The recorded `scale_factor` is the scale the pair was run at. -/
@[simp] theorem process_file_scale_factor (imgOk : Bool) (imgB64 : String)
    (api : ApiReply) (dir name : String) (q : Nat) (s : Scale) :
    (process_file imgOk imgB64 api dir name q s).scale_factor = s := by
  rcases process_file_shape imgOk imgB64 api dir name q s with ⟨msg, h⟩ | ⟨resp, h⟩ <;>
    simp [h, failure_result, success_result]

/-- The recorded `quality` is the quality the pair was run at. -/
@[simp] theorem process_file_quality (imgOk : Bool) (imgB64 : String)
    (api : ApiReply) (dir name : String) (q : Nat) (s : Scale) :
    (process_file imgOk imgB64 api dir name q s).quality = q := by
  rcases process_file_shape imgOk imgB64 api dir name q s with ⟨msg, h⟩ | ⟨resp, h⟩ <;>
    simp [h, failure_result, success_result]

/-- A successful run is exactly the success dictionary for some response. -/
theorem process_file_success_shape {imgOk : Bool} {imgB64 : String}
    {api : ApiReply} {dir name : String} {q : Nat} {s : Scale}
    (h : (process_file imgOk imgB64 api dir name q s).success = true) :
    ∃ resp, process_file imgOk imgB64 api dir name q s
        = success_result (dir ++ "/" ++ name) (output_path dir name q s) q s
            (mkPayload imgB64) resp := by
  rcases process_file_shape imgOk imgB64 api dir name q s with ⟨msg, hf⟩ | hs
  · rw [hf] at h; simp [failure_result] at h
  · exact hs

/-- A failed run is exactly the failure dictionary for some message. -/
theorem process_file_failure_shape {imgOk : Bool} {imgB64 : String}
    {api : ApiReply} {dir name : String} {q : Nat} {s : Scale}
    (h : (process_file imgOk imgB64 api dir name q s).success = false) :
    ∃ msg, process_file imgOk imgB64 api dir name q s
        = failure_result msg (dir ++ "/" ++ name) q s := by
  rcases process_file_shape imgOk imgB64 api dir name q s with hf | ⟨resp, hs⟩
  · exact hf
  · rw [hs] at h; simp [success_result] at h

/-- The width estimate is monotone in the character count. -/
theorem est_width_mono {a b : Nat} (h : a ≤ b) : est_width a ≤ est_width b := by
  unfold est_width; omega

/-- The width estimate is strictly monotone (each character adds at least
8 estimated pixels). -/
theorem est_width_strict_mono {a b : Nat} (h : a < b) : est_width a < est_width b := by
  unfold est_width; omega

/-- Every word of a line is at most as long as the joined line string. -/
theorem lineStr_length_le {w : String} : ∀ {l : List String}, w ∈ l →
    w.length ≤ (lineStr l).length := by
  intro l
  induction l with
  | nil => intro h; cases h
  | cons a t ih =>
    intro h
    cases t with
    | nil =>
      rcases List.mem_singleton.mp h with rfl
      exact Nat.le_refl _
    | cons v ws =>
      have hlen : (lineStr (a :: v :: ws)).length
          = a.length + 1 + (lineStr (v :: ws)).length := by
        show (a ++ " " ++ lineStr (v :: ws)).length = _
        simp [String.length_append]
        decide
      rcases List.mem_cons.mp h with rfl | hmem
      · omega
      · have := ih hmem
        omega

/-- A word strictly shorter than its line unless it is the whole line. -/
theorem lineStr_length_lt {w : String} : ∀ {l : List String}, w ∈ l → l ≠ [w] →
    w.length < (lineStr l).length := by
  intro l
  induction l with
  | nil => intro h; cases h
  | cons a t ih =>
    intro h hne
    cases t with
    | nil =>
      rcases List.mem_singleton.mp h with rfl
      exact absurd rfl hne
    | cons v ws =>
      have hlen : (lineStr (a :: v :: ws)).length
          = a.length + 1 + (lineStr (v :: ws)).length := by
        show (a ++ " " ++ lineStr (v :: ws)).length = _
        simp [String.length_append]
        decide
      rcases List.mem_cons.mp h with rfl | hmem
      · omega
      · have := lineStr_length_le hmem
        omega

/-- Flushing never loses words: the flattened greedy output is the current
line followed by the remaining words. -/
theorem greedy_wrap_flatten (limit : Nat) : ∀ (ws cur : List String),
    (greedy_wrap limit ws cur).flatten = cur ++ ws := by
  intro ws
  induction ws with
  | nil =>
    intro cur
    by_cases h : cur.isEmpty
    · simp [greedy_wrap, h, List.isEmpty_iff.mp h]
    · simp [greedy_wrap, h]
  | cons w t ih =>
    intro cur
    unfold greedy_wrap
    by_cases h : est_width (lineStr (cur ++ [w])).length < limit
    · simp only [if_pos h, ih (cur ++ [w])]
      simp
    · simp only [if_neg h, List.flatten_cons, ih [w]]
      simp

/-- Once an oversized word has become the current line, it is flushed alone. -/
theorem greedy_wrap_oversized_cur (limit : Nat) (w : String)
    (hw : limit ≤ est_width w.length) :
    ∀ ws : List String, [w] ∈ greedy_wrap limit ws [w] := by
  intro ws
  cases ws with
  | nil => simp [greedy_wrap]
  | cons v vs =>
    have hlen : w.length ≤ (lineStr ([w] ++ [v])).length :=
      lineStr_length_le (by simp)
    have hfit : ¬ est_width (lineStr ([w] ++ [v])).length < limit := by
      have := est_width_mono hlen
      omega
    simp only [greedy_wrap, if_neg hfit]
    exact List.mem_cons_self _ _

/-- An oversized word anywhere in the remaining words ends up alone on its
own output line, whatever the current accumulation is. -/
theorem greedy_wrap_oversized_mem (limit : Nat) (w : String)
    (hw : limit ≤ est_width w.length) :
    ∀ (ws cur : List String), w ∈ ws → [w] ∈ greedy_wrap limit ws cur := by
  intro ws
  induction ws with
  | nil => intro cur h; cases h
  | cons u t ih =>
    intro cur h
    rcases List.mem_cons.mp h with rfl | hmem
    · have hlen : w.length ≤ (lineStr (cur ++ [w])).length :=
        lineStr_length_le (by simp)
      have hfit : ¬ est_width (lineStr (cur ++ [w])).length < limit := by
        have := est_width_mono hlen
        omega
      simp only [greedy_wrap, if_neg hfit]
      exact List.mem_cons_of_mem _ (greedy_wrap_oversized_cur limit w hw t)
    · unfold greedy_wrap
      by_cases hfit : est_width (lineStr (cur ++ [u])).length < limit
      · simp only [if_pos hfit]
        exact ih (cur ++ [u]) hmem
      · simp only [if_neg hfit]
        exact List.mem_cons_of_mem _ (ih [u] hmem)

/-- Counting persisted documents by a key on the record equals counting
successful records matching the key. -/
theorem persisted_filter_length (name out_dir : String) (p : EvalResult → Bool) :
    ∀ l : List EvalResult,
      ((l.filterMap (fun r =>
          if r.success then
            some (out_dir ++ "/" ++ json_filename name r.scale_factor r.quality,
              result_for_json r)
          else none)).filter (fun e => p e.2)).length
        = (l.filter (fun r => r.success && p r)).length := by
  intro l
  induction l with
  | nil => rfl
  | cons r t ih =>
    simp only [result_for_json] at ih ⊢
    by_cases hs : r.success
    · by_cases hp : p r <;>
        simp [List.filterMap_cons, hs, List.filter_cons, hp, ih]
    · simp [List.filterMap_cons, hs, List.filter_cons, ih]

/-- Specialisation of `persisted_filter_length` to a whole sweep. -/
theorem sweep_persisted_filter (env : SweepEnv) (dir name out_dir : String)
    (p : EvalResult → Bool) :
    ((sweep_persisted env dir name out_dir).filter (fun e => p e.2)).length
      = ((run_sweep env dir name).filter (fun r => r.success && p r)).length := by
  simp only [sweep_persisted, run_sweep, scales, List.flatMap_cons, List.flatMap_nil,
    List.append_nil, List.filter_append, List.length_append, cycle_persisted]
  rw [persisted_filter_length, persisted_filter_length, persisted_filter_length]

/-! ### Claim theorems -/

/-- C1: for every source image the sweep enumerates exactly the 18
(scale, quality) pairs of the cross-product [1.0, 2/3, 1/3] ×
[100, 90, 70, 50, 30, 10], each exactly once, qualities innermost, and every
run produces one `EvalResult` per pair carrying that pair's scale and
quality, in enumeration order. -/
theorem sweep_enumerates_cross_product :
    sweep_pairs.length = 18 ∧
    sweep_pairs =
      [(⟨1, 1⟩, 100), (⟨1, 1⟩, 90), (⟨1, 1⟩, 70), (⟨1, 1⟩, 50), (⟨1, 1⟩, 30), (⟨1, 1⟩, 10),
       (⟨2, 3⟩, 100), (⟨2, 3⟩, 90), (⟨2, 3⟩, 70), (⟨2, 3⟩, 50), (⟨2, 3⟩, 30), (⟨2, 3⟩, 10),
       (⟨1, 3⟩, 100), (⟨1, 3⟩, 90), (⟨1, 3⟩, 70), (⟨1, 3⟩, 50), (⟨1, 3⟩, 30), (⟨1, 3⟩, 10)] ∧
    (∀ s ∈ scales, ∀ q ∈ qualities, sweep_pairs.count (s, q) = 1) ∧
    (∀ (env : SweepEnv) (dir name : String),
      (run_sweep env dir name).map (fun r => (r.scale_factor, r.quality)) = sweep_pairs) := by
  refine ⟨by decide, by decide, by decide, ?_⟩
  intro env dir name
  simp [run_sweep, run_full_quality_cycle, sweep_pairs, scales, qualities]

/-- Witness for C1 at the concrete pair (2/3, 50). -/
theorem sweep_enumerates_cross_product_witness :
    sweep_pairs.count ((⟨2, 3⟩ : Scale), 50) = 1 :=
  sweep_enumerates_cross_product.2.2.1 ⟨2, 3⟩ (by decide) 50 (by decide)

/-- C2: for positive inputs, both returned dimensions are at most the bound,
the input is returned unchanged when already within the bound, the longer
side maps exactly to the bound when any side exceeds it, and the aspect ratio
is preserved to within one pixel of rounding (cross products agree within one
denominator). -/
theorem compute_bound_dimensions_spec (w h bound : Nat)
    (hw : 0 < w) (hh : 0 < h) (_hb : 0 < bound) :
    (compute_bound_dimensions w h bound).1 ≤ bound ∧
    (compute_bound_dimensions w h bound).2 ≤ bound ∧
    (w ≤ bound → h ≤ bound → compute_bound_dimensions w h bound = (w, h)) ∧
    ((bound < w ∨ bound < h) →
      ((h ≤ w → (compute_bound_dimensions w h bound).1 = bound) ∧
       (w ≤ h → (compute_bound_dimensions w h bound).2 = bound))) ∧
    (h * (compute_bound_dimensions w h bound).1
        < ((compute_bound_dimensions w h bound).2 + 1) * w ∧
     (compute_bound_dimensions w h bound).2 * w
        < ((compute_bound_dimensions w h bound).1 + 1) * h) := by
  unfold compute_bound_dimensions
  by_cases h1 : w > bound ∨ h > bound
  · rw [if_pos h1]
    by_cases h2 : w > h
    · rw [if_pos h2]
      have hwb : bound < w := by rcases h1 with h1 | h1 <;> omega
      have hcap : h * bound ≤ bound * w := by
        calc h * bound = bound * h := Nat.mul_comm h bound
          _ ≤ bound * w := Nat.mul_le_mul_left bound (Nat.le_of_lt h2)
      refine ⟨Nat.le_refl _, nat_div_le_of_le_mul hcap, ?_, ?_, ?_, ?_⟩
      · intro hcw _; exact absurd hcw (by omega)
      · exact fun _ => ⟨fun _ => rfl, fun hwh => absurd hwh (by omega)⟩
      · exact nat_lt_div_succ_mul (h * bound) w (by omega)
      · calc h * bound / w * w ≤ h * bound := Nat.div_mul_le_self _ _
          _ = bound * h := Nat.mul_comm h bound
          _ < (bound + 1) * h := by nlinarith
    · rw [if_neg h2]
      have hwh : w ≤ h := by omega
      have hhb : bound < h := by rcases h1 with h1 | h1 <;> omega
      have hcap : w * bound ≤ bound * h := by
        calc w * bound = bound * w := Nat.mul_comm w bound
          _ ≤ bound * h := Nat.mul_le_mul_left bound hwh
      refine ⟨nat_div_le_of_le_mul hcap, Nat.le_refl _, ?_, ?_, ?_, ?_⟩
      · intro _ hch; exact absurd hch (by omega)
      · refine fun _ => ⟨?_, fun _ => rfl⟩
        intro hhw
        have : w = h := by omega
        subst this
        exact Nat.mul_div_cancel_left bound hw
      · calc h * (w * bound / h) ≤ w * bound := by
              rw [Nat.mul_comm]; exact Nat.div_mul_le_self _ _
          _ < (bound + 1) * w := by nlinarith
      · calc bound * w = w * bound := Nat.mul_comm bound w
          _ < (w * bound / h + 1) * h := nat_lt_div_succ_mul (w * bound) h (by omega)
  · rw [if_neg h1]
    push_neg at h1
    refine ⟨h1.1, h1.2, fun _ _ => rfl, ?_, by nlinarith, by nlinarith⟩
    intro hc; rcases hc with hc | hc <;> [exact absurd hc (by omega); exact absurd hc (by omega)]

/-- Witness for C2 at (1920, 1080, 896): resize to (896, 504). -/
theorem compute_bound_dimensions_spec_witness :
    (compute_bound_dimensions 1920 1080 896).1 ≤ 896 ∧
    (compute_bound_dimensions 1920 1080 896).2 ≤ 896 ∧
    (1920 ≤ 896 → 1080 ≤ 896 → compute_bound_dimensions 1920 1080 896 = (1920, 1080)) ∧
    ((896 < 1920 ∨ 896 < 1080) →
      ((1080 ≤ 1920 → (compute_bound_dimensions 1920 1080 896).1 = 896) ∧
       (1920 ≤ 1080 → (compute_bound_dimensions 1920 1080 896).2 = 896))) ∧
    (1080 * (compute_bound_dimensions 1920 1080 896).1
        < ((compute_bound_dimensions 1920 1080 896).2 + 1) * 1920 ∧
     (compute_bound_dimensions 1920 1080 896).2 * 1920
        < ((compute_bound_dimensions 1920 1080 896).1 + 1) * 1080) :=
  compute_bound_dimensions_spec 1920 1080 896 (by decide) (by decide) (by decide)

/-- C3 counterexample: at 1920×1080 and scale 1/3 the code truncates the
scaled shorter side with `int(...)`: `int(1080 * 298/1920) = int(167.625)
= 167`, not the 168 the claim's round-to-nearest arithmetic produces, so the
resize is 298×167, not 298×168. -/
theorem resize_rounding_claim_false :
    effectiveMaxDimension 896 ⟨1, 3⟩ = 298 ∧
    round_div (1080 * 298) 1920 = 168 ∧
    compute_bound_dimensions 1920 1080 (effectiveMaxDimension 896 ⟨1, 3⟩) = (298, 167) ∧
    ((298, 167) : Nat × Nat) ≠ (298, 168) := by decide

/-- C3 amended: when resizing occurs the shorter side is scaled by the same
ratio as the longer side and truncated (floored); a 1920×1080 image at scale
1/3 (effective bound 298) resizes to exactly 298×167 and the encoded variant
path is `name_q30_s33.jpg` at quality 30. -/
theorem resize_truncation_example :
    effectiveMaxDimension 896 ⟨1, 3⟩ = 298 ∧
    compute_bound_dimensions 1920 1080 (effectiveMaxDimension 896 ⟨1, 3⟩) = (298, 167) ∧
    output_path "d" "name" 30 ⟨1, 3⟩ = "d/name_q30_s33.jpg" := by decide

/-- C4 counterexample: at scale 2/3 and quality 100 the comparison-artifact
filename keeps the quality suffix (`img_s66_q100_combined.jpg`) instead of
omitting it as the claimed naming law requires. -/
theorem combined_filename_claim_false :
    combined_filename "img" ⟨2, 3⟩ 100 = "img_s66_q100_combined.jpg" ∧
    combined_filename "img" ⟨2, 3⟩ 100
      ≠ "img" ++ "_s" ++ toString (Scale.pct ⟨2, 3⟩) ++ "_combined.jpg" := by decide

/-- C4 amended: the filename is a pure function of (base name, scale,
quality): the reserved "original" literal when scale = 1.0 and quality = 100;
the scale suffix is omitted when scale = 1.0 with quality ≠ 100; but when
scale ≠ 1.0 both suffixes are present — the quality suffix is never omitted,
including at quality 100. -/
theorem combined_filename_amended :
    ∀ (name : String) (q : Nat) (s : Scale), s ∈ scales →
      (s = ⟨1, 1⟩ → q = 100 → combined_filename name s q = name ++ "_original_combined.jpg") ∧
      (s = ⟨1, 1⟩ → q ≠ 100 →
        combined_filename name s q = name ++ "_q" ++ toString q ++ "_combined.jpg") ∧
      (s ≠ ⟨1, 1⟩ → combined_filename name s q
          = name ++ "_s" ++ toString s.pct ++ "_q" ++ toString q ++ "_combined.jpg") := by
  intro name q s hs
  refine ⟨?_, ?_, ?_⟩
  · rintro rfl rfl; rfl
  · rintro rfl hq
    simp [combined_filename, Scale.isOne, hq]
  · intro hne
    fin_cases hs
    · exact absurd rfl hne
    · simp [combined_filename, Scale.isOne]
    · simp [combined_filename, Scale.isOne]

/-- Witness for C4 amended at ("img", 90, 2/3) and ("img", 100, 1/1). -/
theorem combined_filename_amended_witness :
    combined_filename "img" ⟨1, 1⟩ 100 = "img" ++ "_original_combined.jpg" ∧
    combined_filename "img" ⟨2, 3⟩ 90
      = "img" ++ "_s" ++ toString (Scale.pct ⟨2, 3⟩) ++ "_q" ++ toString 90 ++ "_combined.jpg" :=
  ⟨(combined_filename_amended "img" 100 ⟨1, 1⟩ (by decide)).1 rfl rfl,
   (combined_filename_amended "img" 90 ⟨2, 3⟩ (by decide)).2.2 (by decide)⟩

/-- C7 counterexample: the scale suffix is `int(scale*100)` (truncation), so
scale 2/3 yields `s66`, not the claimed `round(scale*100) = 67`. -/
theorem output_path_round_claim_false :
    output_path "out" "img" 100 ⟨2, 3⟩ = "out/img_q100_s66.jpg" ∧
    spec_output_path "out" "img" 100 ⟨2, 3⟩ = "out/img_q100_s67.jpg" ∧
    output_path "out" "img" 100 ⟨2, 3⟩ ≠ spec_output_path "out" "img" 100 ⟨2, 3⟩ := by decide

/-- C7 amended: for every quality in [1,100] and every scale in the fixed
list, the canonical encoded-variant path is
`{dir}/{basename}_q{quality}_s{floor(scale*100)}.jpg` — the suffix truncates
(scale 1.0 → s100, 2/3 → s66, 1/3 → s33). -/
theorem output_path_amended :
    ∀ (dir name : String) (q : Nat), 1 ≤ q → q ≤ 100 →
      (output_path dir name q ⟨1, 1⟩
        = dir ++ "/" ++ name ++ "_q" ++ toString q ++ "_s100.jpg") ∧
      (output_path dir name q ⟨2, 3⟩
        = dir ++ "/" ++ name ++ "_q" ++ toString q ++ "_s66.jpg") ∧
      (output_path dir name q ⟨1, 3⟩
        = dir ++ "/" ++ name ++ "_q" ++ toString q ++ "_s33.jpg") := by
  intro dir name q _ _
  refine ⟨?_, ?_, ?_⟩ <;>
    · show _ ++ "_s" ++ toString (Scale.pct _) ++ ".jpg" = _
      rw [String.append_assoc, String.append_assoc]
      rfl

/-- Witness for C7 amended at ("out", "img", 30). -/
theorem output_path_amended_witness :
    output_path "out" "img" 30 ⟨1, 3⟩
      = "out" ++ "/" ++ "img" ++ "_q" ++ toString 30 ++ "_s33.jpg" :=
  (output_path_amended "out" "img" 30 (by decide) (by decide)).2.2

/-- C6 counterexample: an API reply without a `choices` array yields a record
with `success = true` whose `response` key is present but holds `None` — the
response text is absent despite success, contradicting the claimed invariant. -/
theorem success_response_claim_false :
    (process_file true "QkFTRTY0" (ApiReply.reply none) "d" "n" 100 ⟨1, 1⟩).success = true ∧
    response_text_present
      (process_file true "QkFTRTY0" (ApiReply.reply none) "d" "n" 100 ⟨1, 1⟩) = false ∧
    (process_file true "QkFTRTY0" (ApiReply.reply none) "d" "n" 100 ⟨1, 1⟩).response
      = some none := by decide

/-- C6 amended: `success = true` implies the payload was sent and the
`response` key is present — but its value is `None` (no response text) when
the API reply lacks a `choices` array; `success = false` implies the response
is absent entirely. -/
theorem success_response_amended (imgOk : Bool) (imgB64 : String) (api : ApiReply)
    (dir name : String) (q : Nat) (s : Scale) :
    ((process_file imgOk imgB64 api dir name q s).success = true →
        (process_file imgOk imgB64 api dir name q s).payload.isSome = true ∧
        (process_file imgOk imgB64 api dir name q s).response.isSome = true) ∧
    ((process_file imgOk imgB64 api dir name q s).success = false →
        (process_file imgOk imgB64 api dir name q s).response = none) ∧
    (imgOk = true → imgB64 ≠ "" → api = ApiReply.reply none →
        (process_file imgOk imgB64 api dir name q s).success = true ∧
        (process_file imgOk imgB64 api dir name q s).response = some none) := by
  refine ⟨?_, ?_, ?_⟩
  · intro h
    rcases process_file_success_shape h with ⟨resp, hr⟩
    rw [hr]; simp [success_result]
  · intro h
    rcases process_file_failure_shape h with ⟨msg, hr⟩
    rw [hr]; simp [failure_result]
  · rintro rfl hb rfl
    simp [process_file, process_image, hb, extract_response, success_result]

/-- Witness for C6 amended: a successful pair, a failing pair, and a pair
answered without `choices`. -/
theorem success_response_amended_witness :
    ((process_file true "QkFTRTY0"
        (ApiReply.reply (some [{ message := some (some "a cat"), text := none }]))
        "d" "n" 90 ⟨2, 3⟩).payload.isSome = true ∧
     (process_file true "QkFTRTY0"
        (ApiReply.reply (some [{ message := some (some "a cat"), text := none }]))
        "d" "n" 90 ⟨2, 3⟩).response.isSome = true) ∧
    (process_file false "QkFTRTY0"
        (ApiReply.reply (some [{ message := some (some "a cat"), text := none }]))
        "d" "n" 90 ⟨2, 3⟩).response = none ∧
    ((process_file true "QkFTRTY0" (ApiReply.reply none) "d" "n" 90 ⟨2, 3⟩).success = true ∧
     (process_file true "QkFTRTY0" (ApiReply.reply none) "d" "n" 90 ⟨2, 3⟩).response
        = some none) :=
  ⟨(success_response_amended true "QkFTRTY0"
      (ApiReply.reply (some [{ message := some (some "a cat"), text := none }]))
      "d" "n" 90 ⟨2, 3⟩).1 (by decide),
   (success_response_amended false "QkFTRTY0"
      (ApiReply.reply (some [{ message := some (some "a cat"), text := none }]))
      "d" "n" 90 ⟨2, 3⟩).2.1 (by decide),
   (success_response_amended true "QkFTRTY0" (ApiReply.reply none)
      "d" "n" 90 ⟨2, 3⟩).2.2 rfl (by decide) rfl⟩

/-- C8: a word whose estimated width reaches the usable panel width is placed
alone on its own output line, the wrapper terminates without error, and no
word (hence no character) is dropped: the flattened output is exactly the
input word list. -/
theorem wrap_line_oversized_word (limit : Nat) (ws : List String) (w : String)
    (hmem : w ∈ ws) (hov : limit ≤ est_width w.length) :
    [w] ∈ wrap_line limit ws ∧ (wrap_line limit ws).flatten = ws := by
  unfold wrap_line
  by_cases hwrap : est_width (lineStr ws).length > limit
  · rw [if_pos hwrap]
    exact ⟨greedy_wrap_oversized_mem limit w hov ws [] hmem,
      by simpa using greedy_wrap_flatten limit ws []⟩
  · rw [if_neg hwrap]
    have hws : ws = [w] := by
      by_contra hne
      have hlt := lineStr_length_lt hmem hne
      have := est_width_strict_mono hlt
      omega
    subst hws
    exact ⟨by simp, by simp⟩

/-- Witness for C8: a 20-character word against a 100-pixel usable width. -/
theorem wrap_line_oversized_word_witness :
    [("supercalifragilisti" : String)]
        ∈ wrap_line 100 ["This", "is", "supercalifragilisti", "ok"] ∧
    (wrap_line 100 ["This", "is", "supercalifragilisti", "ok"]).flatten
        = ["This", "is", "supercalifragilisti", "ok"] :=
  wrap_line_oversized_word 100 ["This", "is", "supercalifragilisti", "ok"]
    "supercalifragilisti" (by decide) (by decide)

/-- C9: a successful record whose `response` key holds `None` (the reply had
no `choices`) makes the comparison-artifact renderer fail internally
(`None.split` raises, the exception is caught) and return no artifact,
instead of rendering the "No response" placeholder. -/
theorem render_none_on_absent_response (imgOk : Bool) (imgB64 : String)
    (api : ApiReply) (dir name : String) (q : Nat) (s : Scale)
    (origOk : Bool) (ow oh : Nat) (rname out_dir : String)
    (hsucc : (process_file imgOk imgB64 api dir name q s).success = true)
    (hresp : (process_file imgOk imgB64 api dir name q s).response = some none) :
    create_side_by_side_image origOk ow oh rname
      (process_file imgOk imgB64 api dir name q s) out_dir = none := by
  rcases process_file_success_shape hsucc with ⟨resp, hr⟩
  rw [hr] at hresp ⊢
  have hnone : resp = none := by simpa [success_result] using hresp
  subst hnone
  cases origOk <;> simp [create_side_by_side_image, success_result]

/-- Witness for C9 at a concrete choices-free reply. -/
theorem render_none_on_absent_response_witness :
    create_side_by_side_image true 100 80 "img"
      (process_file true "QkFTRTY0" (ApiReply.reply none) "d" "n" 100 ⟨1, 1⟩) "out" = none :=
  render_none_on_absent_response true "QkFTRTY0" (ApiReply.reply none) "d" "n" 100 ⟨1, 1⟩
    true 100 80 "img" "out" (by decide) (by decide)

/-- C10: every failed record consists of exactly the six keys
{success, error, file_path, quality, scale_factor, timestamp} and omits
output_path, processing_time, payload and response; every successful record
has the nine-key set — so failure records have a strictly smaller field set
(6 < 9). -/
theorem result_fields_by_success (imgOk : Bool) (imgB64 : String) (api : ApiReply)
    (dir name : String) (q : Nat) (s : Scale) :
    ((process_file imgOk imgB64 api dir name q s).success = false →
      result_fields (process_file imgOk imgB64 api dir name q s)
        = ["success", "error", "file_path", "quality", "scale_factor", "timestamp"]) ∧
    ((process_file imgOk imgB64 api dir name q s).success = true →
      result_fields (process_file imgOk imgB64 api dir name q s)
        = ["success", "file_path", "output_path", "quality", "scale_factor",
           "timestamp", "processing_time", "payload", "response"]) := by
  constructor
  · intro h
    rcases process_file_failure_shape h with ⟨msg, hr⟩
    rw [hr]; rfl
  · intro h
    rcases process_file_success_shape h with ⟨resp, hr⟩
    rw [hr]; rfl

/-- Witness for C10: one failing run and one successful run. -/
theorem result_fields_by_success_witness :
    result_fields (process_file false "QkFTRTY0" (ApiReply.reply none) "d" "n" 10 ⟨1, 3⟩)
      = ["success", "error", "file_path", "quality", "scale_factor", "timestamp"] ∧
    result_fields (process_file true "QkFTRTY0" (ApiReply.reply none) "d" "n" 10 ⟨1, 3⟩)
      = ["success", "file_path", "output_path", "quality", "scale_factor",
         "timestamp", "processing_time", "payload", "response"] :=
  ⟨(result_fields_by_success false "QkFTRTY0" (ApiReply.reply none) "d" "n" 10 ⟨1, 3⟩).1
      (by decide),
   (result_fields_by_success true "QkFTRTY0" (ApiReply.reply none) "d" "n" 10 ⟨1, 3⟩).2
      (by decide)⟩

/-- C5 counterexample: with one transport failure injected at pair
(2/3, 50), the sweep still runs all 18 pairs but persists only 17 JSON
documents — the failed pair gets none, contradicting "exactly one JSON result
document per pair, including pairs whose encoding or inference fails". -/
theorem json_per_pair_claim_false :
    (run_sweep env_fail_one "in" "img").length = 18 ∧
    (sweep_persisted env_fail_one "in" "img" "out").length = 17 ∧
    ((sweep_persisted env_fail_one "in" "img" "out").filter
        (fun e => e.2.scale_factor == (⟨2, 3⟩ : Scale) && e.2.quality == 50)).length
      = 0 := by decide

/-- C5 amended: the sweep always runs all 18 pairs (a pair's failure never
aborts it); exactly one JSON document is persisted per *successful* pair —
keyed by the recorded (scale, quality) — and none for a failed pair; every
persisted document is a successful sweep record kept in full
(the `image_base64` exclusion filter matches no key). -/
theorem sweep_persistence_amended (env : SweepEnv) (dir name out_dir : String) :
    (run_sweep env dir name).length = 18 ∧
    (∀ s q, s ∈ scales → q ∈ qualities →
      ((sweep_persisted env dir name out_dir).filter
          (fun e => e.2.scale_factor == s && e.2.quality == q)).length
        = (if (process_file (env.imgOk s q) (env.imgB64 s q) (env.api s q)
              dir name q s).success then 1 else 0)) ∧
    (∀ e ∈ sweep_persisted env dir name out_dir,
      e.2.success = true ∧ e.2 ∈ run_sweep env dir name) := by
  refine ⟨?_, ?_, ?_⟩
  · simp [run_sweep, run_full_quality_cycle, scales, qualities]
  · intro s q hs hq
    rw [sweep_persisted_filter env dir name out_dir
      (fun r => r.scale_factor == s && r.quality == q)]
    fin_cases hs <;> fin_cases hq <;>
      · simp +decide [run_sweep, run_full_quality_cycle, scales, qualities,
          List.filter_cons]
        split <;> simp
  · intro e he
    simp only [sweep_persisted] at he
    rcases List.mem_flatMap.mp he with ⟨s, hs, hcyc⟩
    simp only [cycle_persisted] at hcyc
    rcases List.mem_filterMap.mp hcyc with ⟨r, hr, hif⟩
    by_cases hsucc : r.success
    · rw [if_pos hsucc] at hif
      obtain rfl := Option.some.inj hif
      exact ⟨hsucc, List.mem_flatMap.mpr ⟨s, hs, hr⟩⟩
    · rw [if_neg hsucc] at hif
      simp at hif

/-- Witness for C5 amended at pair (2/3, 50) under the all-success
environment. -/
theorem sweep_persistence_amended_witness :
    ((sweep_persisted env_all_ok "in" "img" "out").filter
        (fun e => e.2.scale_factor == (⟨2, 3⟩ : Scale) && e.2.quality == 50)).length
      = (if (process_file (env_all_ok.imgOk ⟨2, 3⟩ 50) (env_all_ok.imgB64 ⟨2, 3⟩ 50)
            (env_all_ok.api ⟨2, 3⟩ 50) "in" "img" 50 ⟨2, 3⟩).success then 1 else 0) :=
  (sweep_persistence_amended env_all_ok "in" "img" "out").2.1 ⟨2, 3⟩ 50
    (by decide) (by decide)
